import Mathlib

/-!
Verification of the LocalAI text-embedding client
(`api/core/model_runtime/model_providers/localai/text_embedding/text_embedding.py`)
and the Minimax tokenizer accessor
(`api/core/model_runtime/model_providers/minimax/tokenizer.py`).

The Python code is shallowly embedded: the HTTP layer is a parameter
`net : HttpRequest → Except String HttpResponse` (a raised connection
exception is the `.error` case), JSON bodies are an inductive `Json` value
(`response.json()` is modelled as the `jsonBody` field, `none` meaning a
`JSONDecodeError`), Python exceptions become constructors of `PyError`,
and the externally supplied pricing/clock state of the model class is the
`ModelEnv` record.  `_invoke` additionally returns the list of network
calls it performed, so that "no network call is made" is a statement about
the returned log.
-/

/-- JSON values, as produced by `response.json()`.  Numbers are modelled as
rationals (Python floats/ints at the precision the claims need). -/
inductive Json where
  | null : Json
  | bool (b : Bool) : Json
  | num (q : ℚ) : Json
  | str (s : String) : Json
  | arr (elems : List Json) : Json
  | obj (fields : List (String × Json)) : Json

/-- The Python exceptions `_invoke` and `validate_credentials` can raise.
`keyError` and `typeError` are the builtin Python exceptions escaping a
subscript on a dict without the key resp. on a non-subscriptable value. -/
inductive PyError where
  | invokeBadRequest (msg : String)
  | credentialsValidateFailed (msg : String)
  | invokeConnection (msg : String)
  | invokeServerUnavailable (msg : String)
  | invokeAuthorization (msg : String)
  | invokeRateLimit (msg : String)
  | invokeError (msg : String)
  | keyError (key : String)
  | typeError (msg : String)
deriving DecidableEq, Repr

/-- First-match association lookup, the Python `dict` subscript on the
parsed-JSON objects appearing here (JSON object keys are unique). -/
def lookupField : List (String × Json) → String → Option Json
  | [], _ => none
  | (k, v) :: rest, key => if k = key then some v else lookupField rest key

/-- Python subscript `j[key]`: `KeyError` when the object lacks the key,
`TypeError` when the value is not a dict. -/
def Json.subscript (j : Json) (key : String) : Except PyError Json :=
  match j with
  | .obj fields =>
    match lookupField fields key with
    | some v => .ok v
    | none => .error (.keyError key)
  | _ => .error (.typeError "value is not subscriptable")

/-- Python `x == 500` for a JSON value `x` and an integer literal:
true exactly when `x` is a number equal to it. -/
def jsonNumEq (j : Json) (q : ℚ) : Bool :=
  match j with
  | .num n => n = q
  | _ => false

/-- Python `str(x)` as used when a JSON field is passed to an exception
constructor.  Only the string case is exercised by the error bodies the
server contract sends; compound values get a fixed placeholder. -/
def Json.pyStr : Json → String
  | .null => "None"
  | .bool b => if b then "True" else "False"
  | .num q => toString q
  | .str s => s
  | .arr _ => "<list>"
  | .obj _ => "<dict>"

/-- Python `str(e)` for the exceptions caught by the blanket
`except Exception` of the 200 path: `str(KeyError(k))` is `'k'` (quoted). -/
def PyError.pyStr : PyError → String
  | .keyError k => "'" ++ k ++ "'"
  | .invokeBadRequest m => m
  | .credentialsValidateFailed m => m
  | .invokeConnection m => m
  | .invokeServerUnavailable m => m
  | .invokeAuthorization m => m
  | .invokeRateLimit m => m
  | .invokeError m => m
  | .typeError m => m

/-- Python `s.startswith(pre)`. -/
def pyStartsWith (s pre : String) : Bool := pre.data.isPrefixOf s.data

/-- Python `s.endswith(suf)`. -/
def pyEndsWith (s suf : String) : Bool := suf.data.isSuffixOf s.data

/-- `os.path.join(a, b)` (posixpath): an absolute second part wins; an empty
or slash-terminated first part is concatenated directly; otherwise a `/`
separator is inserted. -/
def osPathJoin (a b : String) : String :=
  if pyStartsWith b "/" then b
  else if a = "" ∨ pyEndsWith a "/" then a ++ b
  else a ++ "/" ++ b

/-- The HTTP request handed to `requests.post` by `_invoke`. -/
structure HttpRequest where
  url : String
  authorization : String
  contentType : String
  body : Json
  timeout : ℕ

/-- An HTTP response.  `jsonBody` is the outcome of `response.json()`
(`none` = `JSONDecodeError`); `text` is the raw body text. -/
structure HttpResponse where
  status_code : ℕ
  jsonBody : Option Json
  text : String

/-- The fixed text of a `JSONDecodeError` as interpolated into the
Server-Unavailable messages (the precise wording is produced by the Python
json library and carries no information the claims depend on). -/
def jsonDecodeErrorStr : String := "Expecting value"

/-- Price info returned by the external `get_price` collaborator. -/
structure PriceInfo where
  unit_price : ℚ
  unit : ℚ
  total_amount : ℚ
  currency : String

/-- External state of the model class: the pricing subsystem (`get_price`
with `price_type=PriceType.INPUT`), and the clock values `time.perf_counter()`
and `self.started_at` used for the latency field. -/
structure ModelEnv where
  get_price : String → List (String × String) → ℚ → PriceInfo
  perf_counter : ℚ
  started_at : ℚ

/-- `EmbeddingUsage` as constructed by `_calc_response_usage`. -/
structure EmbeddingUsage where
  tokens : ℚ
  total_tokens : ℚ
  unit_price : ℚ
  price_unit : ℚ
  total_price : ℚ
  currency : String
  latency : ℚ
deriving DecidableEq, Repr

/-- `TextEmbeddingResult` as returned by `_invoke`. -/
structure TextEmbeddingResult where
  model : String
  embeddings : List (List ℚ)
  usage : EmbeddingUsage
deriving DecidableEq, Repr

/-- `_calc_response_usage`: looks up the input price for the token count and
builds the usage record; latency is `time.perf_counter() - self.started_at`. -/
def calc_response_usage (env : ModelEnv) (model : String)
    (credentials : List (String × String)) (tokens : ℚ) : EmbeddingUsage :=
  let input_price_info := env.get_price model credentials tokens
  { tokens := tokens
    total_tokens := tokens
    unit_price := input_price_info.unit_price
    price_unit := input_price_info.unit
    total_price := input_price_info.total_amount
    currency := input_price_info.currency
    latency := env.perf_counter - env.started_at }

/-- Python `float(x)` on a JSON value (numbers pass through, booleans are
0/1; the claims only exercise numbers). -/
def pyFloat (j : Json) : Except PyError ℚ :=
  match j with
  | .num q => .ok q
  | .bool b => .ok (if b then 1 else 0)
  | _ => .error (.typeError "float() argument")

/-- Python iteration over the value bound to `embeddings`: only list values
are iterated in the success bodies this code consumes. -/
def jsonElems (j : Json) : Except PyError (List Json) :=
  match j with
  | .arr elems => .ok elems
  | _ => .error (.typeError "value is not iterable")

/-- One entry of `resp['data']`: `[float(data) for data in x['embedding']]`. -/
def embeddingOfEntry (x : Json) : Except PyError (List ℚ) := do
  let e ← x.subscript "embedding"
  let elems ← jsonElems e
  elems.mapM pyFloat

/-- The response-handling tail of `_invoke`, from `if response.status_code
!= 200` to the end.  Mirrors the source line by line: the non-200 branch
catches only `JSONDecodeError`, the 200 branch's `try` covers exactly the
three statements `resp = response.json(); embeddings = resp['data'];
usage = resp['usage']`, and the `usage['total_tokens']` subscript together
with the embedding list comprehension run outside any `try`. -/
def processResponse (env : ModelEnv) (model : String)
    (credentials : List (String × String)) (response : HttpResponse) :
    Except PyError TextEmbeddingResult :=
  if response.status_code ≠ 200 then
    -- `try: resp = response.json(); ... except JSONDecodeError: ...`
    -- Only the decode failure is caught; the `KeyError`/`TypeError` of the
    -- `resp['error']['code']`/`['message']` subscripts and the raised
    -- Invoke* errors all escape the `except JSONDecodeError` clause.
    match response.jsonBody with
    | none =>
      .error (.invokeServerUnavailable
        ("Failed to convert response to json: " ++ jsonDecodeErrorStr
          ++ " with text: " ++ response.text))
    | some resp =>
      match resp.subscript "error" with
      | .error e => .error e
      | .ok err =>
        match err.subscript "code" with
        | .error e => .error e
        | .ok code =>
          match err.subscript "message" with
          | .error e => .error e
          | .ok msg =>
            if jsonNumEq code 500 then
              .error (.invokeServerUnavailable msg.pyStr)
            else if response.status_code = 401 then
              .error (.invokeAuthorization msg.pyStr)
            else if response.status_code = 429 then
              .error (.invokeRateLimit msg.pyStr)
            else if response.status_code = 500 then
              .error (.invokeServerUnavailable msg.pyStr)
            else
              .error (.invokeError msg.pyStr)
  else
    -- `try: resp = response.json(); embeddings = resp['data'];
    --  usage = resp['usage']; except Exception as e: ...` — the blanket
    -- handler wraps any failure of these three statements.
    match response.jsonBody with
    | none =>
      .error (.invokeServerUnavailable
        ("Failed to convert response to json: " ++ jsonDecodeErrorStr
          ++ " with text: " ++ response.text))
    | some resp =>
      match resp.subscript "data" with
      | .error e =>
        .error (.invokeServerUnavailable
          ("Failed to convert response to json: " ++ e.pyStr
            ++ " with text: " ++ response.text))
      | .ok embeddingsJ =>
        match resp.subscript "usage" with
        | .error e =>
          .error (.invokeServerUnavailable
            ("Failed to convert response to json: " ++ e.pyStr
              ++ " with text: " ++ response.text))
        | .ok usageJ =>
          -- From here on the source runs outside any `try`: the
          -- `usage['total_tokens']` subscript and the embedding list
          -- comprehension raise uncaught builtin exceptions.
          match usageJ.subscript "total_tokens" with
          | .error e => .error e
          | .ok totalTokens =>
            match pyFloat totalTokens with
            | .error e => .error e
            | .ok tokensQ =>
              let usage := calc_response_usage env model credentials tokensQ
              match jsonElems embeddingsJ with
              | .error e => .error e
              | .ok entries =>
                match entries.mapM embeddingOfEntry with
                | .error e => .error e
                | .ok vecs =>
                  .ok { model := model, embeddings := vecs, usage := usage }

/-- `LocalAITextEmbeddingModel._invoke`.  Returns the outcome together with
the list of HTTP requests actually handed to `requests.post`. -/
def localai_invoke (env : ModelEnv)
    (net : HttpRequest → Except String HttpResponse)
    (model : String) (credentials : List (String × String))
    (texts : List String) :
    Except PyError TextEmbeddingResult × List HttpRequest :=
  if texts.length ≠ 1 then
    (.error (.invokeBadRequest "Only one text is supported"), [])
  else
    match credentials.lookup "server_url" with
    | none => (.error (.keyError "server_url"), [])
    | some server_url =>
      if server_url = "" then
        (.error (.credentialsValidateFailed "server_url is required"), [])
      else if model = "" then
        (.error (.credentialsValidateFailed "model_name is required"), [])
      else
        let req : HttpRequest :=
          { url := osPathJoin server_url "embeddings"
            authorization := "Bearer 123"
            contentType := "application/json"
            body := .obj [("model", .str model), ("input", .str (texts.headD ""))]
            timeout := 10 }
        match net req with
        | .error e => (.error (.invokeConnection e), [req])
        | .ok response => (processResponse env model credentials response, [req])

/-- `LocalAITextEmbeddingModel.validate_credentials`: probes with the single
text `"ping"`; `InvokeAuthorizationError` and `InvokeConnectionError` are
re-raised as `CredentialsValidateFailedError`, everything else passes
through unchanged. -/
def localai_validate_credentials (env : ModelEnv)
    (net : HttpRequest → Except String HttpResponse)
    (model : String) (credentials : List (String × String)) :
    Except PyError Unit × List HttpRequest :=
  let r := localai_invoke env net model credentials ["ping"]
  match r.1 with
  | .ok _ => (.ok (), r.2)
  | .error (.invokeAuthorization _) =>
    (.error (.credentialsValidateFailed "Invalid credentials"), r.2)
  | .error (.invokeConnection e) =>
    (.error (.credentialsValidateFailed ("Invalid credentials: " ++ e)), r.2)
  | .error e => (.error e, r.2)

/-!
Minimax tokenizer accessor
(`api/core/model_runtime/model_providers/minimax/tokenizer.py`).

The module-level mutable global `tokenizer` becomes an explicit state passed
through every call.  `GPT2Tokenizer.from_pretrained` is an external library
call loading opaque vocabulary data; the model records the path it was
handed and a serial number counting how many loads happened, so that
instance identity and "no re-load" are observable facts about the state.
-/

/-- The path `join(dirname(abspath(__file__)), '..', '__base', 'tokenizers',
'gpt2')`, relative to the directory containing the minimax module (the
absolute placement depends on the install location and is irrelevant to
the claims). -/
def gpt2_tokenizer_path (module_dir : String) : String :=
  osPathJoin (osPathJoin (osPathJoin (osPathJoin module_dir "..") "__base")
    "tokenizers") "gpt2"

/-- A constructed tokenizer instance: the pretrained path it was loaded from
and a serial number distinguishing separately constructed instances (the
Python object identity). -/
structure GPT2TokenizerHandle where
  pretrained_path : String
  load_serial : ℕ
deriving DecidableEq, Repr

/-- The process state the tokenizer module closes over: the module-level
global `tokenizer` (initially `None`) and the number of
`GPT2Tokenizer.from_pretrained` calls performed so far. -/
structure TokenizerState where
  tokenizer : Option GPT2TokenizerHandle
  loads : ℕ
deriving DecidableEq, Repr

/-- Process start: the global is `None`, no load has happened. -/
def TokenizerState.initial : TokenizerState := { tokenizer := none, loads := 0 }

/-- `GPT2Tokenizer.from_pretrained(path)`, instrumented: constructs a fresh
instance and bumps the load counter. -/
def from_pretrained (st : TokenizerState) (path : String) :
    GPT2TokenizerHandle × TokenizerState :=
  let handle : GPT2TokenizerHandle :=
    { pretrained_path := path, load_serial := st.loads }
  (handle, { st with loads := st.loads + 1 })

/-- `MinimaxTokenizer.get_encoder`: returns the cached global when set,
otherwise constructs it from the fixed pretrained path and stores it. -/
def get_encoder (module_dir : String) (st : TokenizerState) :
    GPT2TokenizerHandle × TokenizerState :=
  match st.tokenizer with
  | some t => (t, st)
  | none =>
    let r := from_pretrained st (gpt2_tokenizer_path module_dir)
    (r.1, { r.2 with tokenizer := some r.1 })

/-- `n` successive calls of `get_encoder` from a state: the list of returned
instances (in call order) and the final state. -/
def get_encoder_calls (module_dir : String) :
    ℕ → TokenizerState → List GPT2TokenizerHandle × TokenizerState
  | 0, st => ([], st)
  | n + 1, st =>
    let r := get_encoder module_dir st
    let rest := get_encoder_calls module_dir n r.2
    (r.1 :: rest.1, rest.2)

/-!  Concrete fixtures used by counterexamples and witnesses. -/

/-- A pricing/clock environment with constant zero prices and a latency of 4. -/
def envC : ModelEnv :=
  { get_price := fun _ _ _ =>
      { unit_price := 0, unit := 0, total_amount := 0, currency := "USD" }
    perf_counter := 7
    started_at := 3 }

/-- A network stub that answers every request with a fixed response. -/
def netOf (response : HttpResponse) : HttpRequest → Except String HttpResponse :=
  fun _ => .ok response

/-- Observation: `some` of the embedding count on success, `none` on failure. -/
def embeddingsCount (r : Except PyError TextEmbeddingResult) : Option ℕ :=
  match r with
  | .ok res => some res.embeddings.length
  | .error _ => none

/-- Whether an outcome is a `CredentialsValidateFailedError`. -/
def isCredentialsValidationFailure {α : Type} : Except PyError α → Bool
  | .error (.credentialsValidateFailed _) => true
  | _ => false

/-- Whether an outcome is an `InvokeServerUnavailableError`. -/
def isServerUnavailableFailure {α : Type} : Except PyError α → Bool
  | .error (.invokeServerUnavailable _) => true
  | _ => false

/-- The conforming 200 body `{"data":[{"embedding":[0.1,0.2]}],"usage":
{"total_tokens":5}}` (the floats 0.1 and 0.2 are exactly the rationals
1/10 and 1/5 at the JSON level). -/
def body200 : Json :=
  .obj [("data", .arr [.obj [("embedding", .arr [.num (1/10), .num (1/5)])]]),
        ("usage", .obj [("total_tokens", .num 5)])]

/-- A 200 response carrying `body200`. -/
def resp200 : HttpResponse :=
  { status_code := 200, jsonBody := some body200, text := "raw" }

/-- A 200 response whose `data` array is empty (a misbehaving server that
`_invoke` nevertheless accepts). -/
def resp200emptyData : HttpResponse :=
  { status_code := 200
    jsonBody := some (.obj [("data", .arr []),
                            ("usage", .obj [("total_tokens", .num 0)])])
    text := "raw" }

/-- A 200 response whose `usage` object lacks `total_tokens`. -/
def resp200noTokens : HttpResponse :=
  { status_code := 200
    jsonBody := some (.obj [("data", .arr []), ("usage", .obj [])])
    text := "rawTT" }

/-- A 401 response with a conforming error body of code 401. -/
def resp401 : HttpResponse :=
  { status_code := 401
    jsonBody := some (.obj [("error", .obj [("code", .num 401),
                                            ("message", .str "bad key")])])
    text := "e" }

/-- A 200 response whose body parses but lacks the `data` key. -/
def resp200noData : HttpResponse :=
  { status_code := 200, jsonBody := some (.obj [("usage", .obj [])])
    text := "nodata" }

/-!  Inversion helpers for `Except` computations. -/

instance {ε α : Type} [DecidableEq ε] [DecidableEq α] :
    DecidableEq (Except ε α) := fun x y =>
  match x, y with
  | .ok a, .ok b =>
    if h : a = b then isTrue (by rw [h]) else isFalse (by simp [h])
  | .error a, .error b =>
    if h : a = b then isTrue (by rw [h]) else isFalse (by simp [h])
  | .ok _, .error _ => isFalse (by simp)
  | .error _, .ok _ => isFalse (by simp)

lemma exceptBind_ok {ε α β : Type} (e : Except ε α) (f : α → Except ε β)
    (b : β) : e >>= f = .ok b ↔ ∃ a, e = .ok a ∧ f a = .ok b := by
  cases e <;> simp [Bind.bind, Except.bind]

lemma mapM_ok_length {ε α β : Type} (f : α → Except ε β) :
    ∀ (l : List α) (res : List β), l.mapM f = .ok res → res.length = l.length := by
  intro l
  induction l with
  | nil =>
    intro res h
    simp [List.mapM, List.mapM.loop, pure, Except.pure] at h
    simp [← h]
  | cons x xs ih =>
    intro res h
    rw [List.mapM_cons] at h
    rw [exceptBind_ok] at h
    obtain ⟨a, _, h⟩ := h
    rw [exceptBind_ok] at h
    obtain ⟨as, has, h⟩ := h
    simp [pure, Except.pure] at h
    subst h
    simp [ih as has]

/-- C6: for every list `texts` whose length differs from 1, `_invoke` fails
with `InvokeBadRequestError('Only one text is supported')` and the network
call log is empty. -/
theorem invoke_badRequest_of_texts_length_ne_one (env : ModelEnv)
    (net : HttpRequest → Except String HttpResponse)
    (model : String) (credentials : List (String × String))
    (texts : List String) (h : texts.length ≠ 1) :
    localai_invoke env net model credentials texts =
      (.error (.invokeBadRequest "Only one text is supported"), []) := by
  simp [localai_invoke, h]

/-- C6 witness: the empty text list is rejected with BadRequest and no
network call. -/
theorem invoke_badRequest_witness :
    localai_invoke envC (netOf resp200) "m" [("server_url", "http://s")] [] =
      (.error (.invokeBadRequest "Only one text is supported"), []) :=
  invoke_badRequest_of_texts_length_ne_one envC (netOf resp200) "m"
    [("server_url", "http://s")] [] (by decide)

/-- C10: the texts-length check precedes credential validation: when
`texts.length ≠ 1`, `_invoke` fails with BadRequest and no network call even
if `server_url` is missing or empty or the model name is empty, and the
failure is not a CredentialsValidation error. -/
theorem texts_length_check_precedes_credential_validation (env : ModelEnv)
    (net : HttpRequest → Except String HttpResponse)
    (model : String) (credentials : List (String × String))
    (texts : List String) (h : texts.length ≠ 1)
    (_hcred : credentials.lookup "server_url" = none ∨
      credentials.lookup "server_url" = some "" ∨ model = "") :
    localai_invoke env net model credentials texts =
      (.error (.invokeBadRequest "Only one text is supported"), []) ∧
    isCredentialsValidationFailure
      (localai_invoke env net model credentials texts).1 = false := by
  refine ⟨by simp [localai_invoke, h], ?_⟩
  simp [localai_invoke, h, isCredentialsValidationFailure]

/-- C10 witness: two texts with entirely missing credentials and an empty
model name still yield BadRequest, not CredentialsValidation. -/
theorem texts_length_check_witness :
    localai_invoke envC (netOf resp200) "" [] ["a", "b"] =
      (.error (.invokeBadRequest "Only one text is supported"), []) ∧
    isCredentialsValidationFailure
      (localai_invoke envC (netOf resp200) "" [] ["a", "b"]).1 = false :=
  texts_length_check_precedes_credential_validation envC (netOf resp200) ""
    [] ["a", "b"] (by decide) (Or.inl rfl)

/-- C2 counterexample: with `texts = ["hello"]`, a credentials dict with no
`server_url` key at all and an empty model name, `_invoke` raises
`KeyError('server_url')` — not a CredentialsValidation error as the claim
states (no network call is made either way). -/
theorem missing_server_url_keyError_cex :
    (localai_invoke envC (netOf resp200) "" [] ["hello"]).1 =
      .error (.keyError "server_url") ∧
    isCredentialsValidationFailure
      (localai_invoke envC (netOf resp200) "" [] ["hello"]).1 = false ∧
    (localai_invoke envC (netOf resp200) "" [] ["hello"]).2 = [] := by
  refine ⟨rfl, rfl, rfl⟩

/-- C2 amended: for a single-text call, a *present but empty* `server_url`
fails with `CredentialsValidateFailedError('server_url is required')`; a
present non-empty `server_url` with an empty model name fails with
`CredentialsValidateFailedError('model_name is required')`; but a *missing*
`server_url` key raises `KeyError('server_url')` instead.  In all three
cases no network call is made. -/
theorem credential_validation_amended (env : ModelEnv)
    (net : HttpRequest → Except String HttpResponse)
    (model : String) (credentials : List (String × String))
    (texts : List String) (htex : texts.length = 1) :
    (credentials.lookup "server_url" = some "" →
      localai_invoke env net model credentials texts =
        (.error (.credentialsValidateFailed "server_url is required"), [])) ∧
    (∀ u, credentials.lookup "server_url" = some u → u ≠ "" → model = "" →
      localai_invoke env net model credentials texts =
        (.error (.credentialsValidateFailed "model_name is required"), [])) ∧
    (credentials.lookup "server_url" = none →
      localai_invoke env net model credentials texts =
        (.error (.keyError "server_url"), [])) := by
  refine ⟨fun hu => ?_, fun u hu hne hm => ?_, fun hu => ?_⟩
  · simp [localai_invoke, htex, hu]
  · simp [localai_invoke, htex, hu, hne, hm]
  · simp [localai_invoke, htex, hu]

/-- C2 witness: an empty `server_url` value is rejected with the
CredentialsValidation error and no network call. -/
theorem credential_validation_witness :
    localai_invoke envC (netOf resp200) "m" [("server_url", "")] ["x"] =
      (.error (.credentialsValidateFailed "server_url is required"), []) :=
  (credential_validation_amended envC (netOf resp200) "m"
    [("server_url", "")] ["x"] (by decide)).1 rfl

/-- C5: for every outcome of the `"ping"` probe inside
`validate_credentials`: a successful probe returns without error, an
`InvokeAuthorizationError` or `InvokeConnectionError` is re-raised as
`CredentialsValidateFailedError`, and every other exception propagates
unchanged. -/
theorem validate_credentials_narrowing (env : ModelEnv)
    (net : HttpRequest → Except String HttpResponse)
    (model : String) (credentials : List (String × String)) :
    (∀ x, (localai_invoke env net model credentials ["ping"]).1 = .ok x →
      (localai_validate_credentials env net model credentials).1 = .ok ()) ∧
    (∀ m, (localai_invoke env net model credentials ["ping"]).1 =
        .error (.invokeAuthorization m) →
      (localai_validate_credentials env net model credentials).1 =
        .error (.credentialsValidateFailed "Invalid credentials")) ∧
    (∀ m, (localai_invoke env net model credentials ["ping"]).1 =
        .error (.invokeConnection m) →
      (localai_validate_credentials env net model credentials).1 =
        .error (.credentialsValidateFailed ("Invalid credentials: " ++ m))) ∧
    (∀ e, (localai_invoke env net model credentials ["ping"]).1 = .error e →
      (∀ m, e ≠ .invokeAuthorization m) → (∀ m, e ≠ .invokeConnection m) →
      (localai_validate_credentials env net model credentials).1 =
        .error e) := by
  refine ⟨fun x hx => ?_, fun m hm => ?_, fun m hm => ?_,
    fun e he hna hnc => ?_⟩
  · simp [localai_validate_credentials, hx]
  · simp [localai_validate_credentials, hm]
  · simp [localai_validate_credentials, hm]
  · cases e with
    | invokeAuthorization m => exact absurd rfl (hna m)
    | invokeConnection m => exact absurd rfl (hnc m)
    | invokeBadRequest m => simp [localai_validate_credentials, he]
    | credentialsValidateFailed m => simp [localai_validate_credentials, he]
    | invokeServerUnavailable m => simp [localai_validate_credentials, he]
    | invokeRateLimit m => simp [localai_validate_credentials, he]
    | invokeError m => simp [localai_validate_credentials, he]
    | keyError k => simp [localai_validate_credentials, he]
    | typeError m => simp [localai_validate_credentials, he]

/-- C5 witness: a 401 probe response with error code 401 makes the probe
fail with `InvokeAuthorizationError`, which `validate_credentials` re-raises
as `CredentialsValidateFailedError('Invalid credentials')`. -/
theorem validate_credentials_witness :
    (localai_validate_credentials envC (netOf resp401) "m"
      [("server_url", "http://s")]).1 =
      .error (.credentialsValidateFailed "Invalid credentials") :=
  (validate_credentials_narrowing envC (netOf resp401) "m"
    [("server_url", "http://s")]).2.1 "bad key" rfl

/-- C3: for a non-200 response whose body parses and carries `error.code`
and `error.message`, `_invoke` fails with Server-Unavailable whenever the
embedded code equals 500, regardless of the HTTP status; otherwise it
dispatches on the status: 401 → Authorization, 429 → RateLimit,
500 → Server-Unavailable, anything else → generic Invoke error. -/
theorem non200_error_dispatch (env : ModelEnv) (model u t : String)
    (credentials : List (String × String)) (response : HttpResponse)
    (respJ errJ code msgJ : Json)
    (hu : credentials.lookup "server_url" = some u) (hne : u ≠ "")
    (hm : model ≠ "") (hs : response.status_code ≠ 200)
    (hj : response.jsonBody = some respJ)
    (he : respJ.subscript "error" = .ok errJ)
    (hc : errJ.subscript "code" = .ok code)
    (hmsg : errJ.subscript "message" = .ok msgJ) :
    (localai_invoke env (netOf response) model credentials [t]).1 =
      (if jsonNumEq code 500 then
        .error (.invokeServerUnavailable msgJ.pyStr)
      else if response.status_code = 401 then
        .error (.invokeAuthorization msgJ.pyStr)
      else if response.status_code = 429 then
        .error (.invokeRateLimit msgJ.pyStr)
      else if response.status_code = 500 then
        .error (.invokeServerUnavailable msgJ.pyStr)
      else
        .error (.invokeError msgJ.pyStr)) := by
  simp [localai_invoke, netOf, hu, hne, hm, processResponse, hs, hj, he, hc,
    hmsg]

/-- C4 counterexample: a 200 response with body `{"data":[],"usage":{}}` —
well-formed JSON that lacks `usage.total_tokens` — makes `_invoke` raise an
uncaught `KeyError('total_tokens')`, not the Server-Unavailable error the
claim states (the subscript runs outside the `try` block). -/
theorem missing_total_tokens_keyError_cex :
    (localai_invoke envC (netOf resp200noTokens) "m"
      [("server_url", "http://s")] ["hello"]).1 =
      .error (.keyError "total_tokens") ∧
    isServerUnavailableFailure
      (localai_invoke envC (netOf resp200noTokens) "m"
        [("server_url", "http://s")] ["hello"]).1 = false :=
  ⟨rfl, rfl⟩

/-- C4 amended: on a 200 response, a body that is malformed JSON or lacks
the `data` or `usage` key fails with Server-Unavailable whose message
carries the raw response text; but a parsed body with `data` and `usage`
whose `usage` object lacks `total_tokens` raises an uncaught
`KeyError('total_tokens')` instead, because that subscript runs after the
guarded block. -/
theorem malformed_200_response_handling (env : ModelEnv) (model u t : String)
    (credentials : List (String × String)) (response : HttpResponse)
    (hu : credentials.lookup "server_url" = some u) (hne : u ≠ "")
    (hm : model ≠ "") (hs : response.status_code = 200) :
    (response.jsonBody = none →
      (localai_invoke env (netOf response) model credentials [t]).1 =
        .error (.invokeServerUnavailable
          ("Failed to convert response to json: " ++ jsonDecodeErrorStr
            ++ " with text: " ++ response.text))) ∧
    (∀ respJ e, response.jsonBody = some respJ →
      respJ.subscript "data" = .error e →
      (localai_invoke env (netOf response) model credentials [t]).1 =
        .error (.invokeServerUnavailable
          ("Failed to convert response to json: " ++ e.pyStr
            ++ " with text: " ++ response.text))) ∧
    (∀ respJ dJ e, response.jsonBody = some respJ →
      respJ.subscript "data" = .ok dJ →
      respJ.subscript "usage" = .error e →
      (localai_invoke env (netOf response) model credentials [t]).1 =
        .error (.invokeServerUnavailable
          ("Failed to convert response to json: " ++ e.pyStr
            ++ " with text: " ++ response.text))) ∧
    (∀ respJ dJ uFields, response.jsonBody = some respJ →
      respJ.subscript "data" = .ok dJ →
      respJ.subscript "usage" = .ok (.obj uFields) →
      lookupField uFields "total_tokens" = none →
      (localai_invoke env (netOf response) model credentials [t]).1 =
        .error (.keyError "total_tokens")) := by
  refine ⟨fun hj => ?_, fun respJ e hj hd => ?_, fun respJ dJ e hj hd hus => ?_,
    fun respJ dJ uFields hj hd hus hlk => ?_⟩
  · simp [localai_invoke, netOf, hu, hne, hm, processResponse, hs, hj]
  · simp [localai_invoke, netOf, hu, hne, hm, processResponse, hs, hj, hd]
  · simp [localai_invoke, netOf, hu, hne, hm, processResponse, hs, hj, hd, hus]
  · simp only [localai_invoke, netOf, hu, hne, hm, processResponse, hs, hj,
      hd, hus]
    simp [hu, hne, hm, Json.subscript, hlk]

/-- C4 witness: a 200 body without the `data` key yields Server-Unavailable
with the raw text `nodata` embedded in the message. -/
theorem malformed_200_response_witness :
    (localai_invoke envC (netOf resp200noData) "m"
      [("server_url", "http://s")] ["hello"]).1 =
      .error (.invokeServerUnavailable
        "Failed to convert response to json: 'data' with text: nodata") := by
  have h := (malformed_200_response_handling envC "m" "http://s" "hello"
    [("server_url", "http://s")] resp200noData rfl (by decide) (by decide)
    rfl).2.1 (.obj [("usage", .obj [])]) (.keyError "data") rfl rfl
  simpa using h

/-- C1 counterexample: a successful `_invoke` call whose 200 response body
is `{"data":[],"usage":{"total_tokens":0}}` returns an embeddings list of
length 0 although exactly one input text was requested — the length follows
the server's `data` array, not the request. -/
theorem embeddings_length_not_one_cex :
    embeddingsCount
      (localai_invoke envC (netOf resp200emptyData) "m"
        [("server_url", "http://s")] ["hello"]).1 = some 0 ∧
    (0 : ℕ) ≠ ["hello"].length := by
  exact ⟨by decide, by decide⟩

/-- C1 amended: for every successful `_invoke` call, the embeddings list of
the result has length equal to the length of the `data` array of the 200
response body — which is 1 only when the server returns exactly one entry;
`_invoke` itself does not enforce agreement with the number of requested
texts. -/
theorem embeddings_length_eq_data_length (env : ModelEnv) (model : String)
    (credentials : List (String × String)) (texts : List String)
    (response : HttpResponse) (respJ : Json) (dataArr : List Json)
    (r : TextEmbeddingResult)
    (hj : response.jsonBody = some respJ)
    (hd : respJ.subscript "data" = .ok (.arr dataArr))
    (hok : (localai_invoke env (netOf response) model credentials texts).1 =
      .ok r) :
    r.embeddings.length = dataArr.length := by
  unfold localai_invoke at hok
  split at hok
  · simp at hok
  · split at hok
    · simp at hok
    · split at hok
      · simp at hok
      · split at hok
        · simp at hok
        · simp only [netOf] at hok
          -- the success came out of `processResponse`
          unfold processResponse at hok
          by_cases hs : response.status_code ≠ 200
          · rw [if_pos hs, hj] at hok
            simp only at hok
            split at hok <;> try simp_all
            split at hok <;> try simp_all
            split at hok <;> try simp_all
            split_ifs at hok
          · rw [if_neg hs, hj] at hok
            simp only at hok
            rw [hd] at hok
            simp only [jsonElems] at hok
            split at hok
            · simp at hok
            · split at hok
              · simp at hok
              · split at hok
                · simp at hok
                · split at hok
                  · simp at hok
                  · rename_i vecs hvecs
                    simp only [Except.ok.injEq] at hok
                    subst hok
                    exact mapM_ok_length embeddingOfEntry dataArr vecs hvecs

/-- The concrete result `_invoke` computes from `resp200` under `envC`. -/
def resultC : TextEmbeddingResult :=
  { model := "m"
    embeddings := [[1/10, 1/5]]
    usage :=
      { tokens := 5, total_tokens := 5, unit_price := 0, price_unit := 0
        total_price := 0, currency := "USD", latency := 7 - 3 } }

/-- C1 amended witness: on the conforming single-entry body the embeddings
list has length 1, the length of the response's `data` array. -/
theorem embeddings_length_witness :
    resultC.embeddings.length =
      [Json.obj [("embedding",
        Json.arr [Json.num (1/10), Json.num (1/5)])]].length :=
  embeddings_length_eq_data_length envC "m" [("server_url", "http://s")]
    ["hello"] resp200 body200
    [Json.obj [("embedding", Json.arr [Json.num (1/10), Json.num (1/5)])]]
    resultC rfl rfl rfl

/-- C7: given a 200 response with body
`{"data":[{"embedding":[0.1,0.2]}],"usage":{"total_tokens":5}}` (0.1 and
0.2 being the rationals 1/10 and 1/5), `_invoke` returns a result with
exactly one embedding vector, equal to [1/10, 1/5], and a usage record
whose `tokens` field equals 5 — for every environment, non-empty model
name, valid credentials, input text and raw body text. -/
theorem invoke_success_on_conforming_body (env : ModelEnv)
    (model u t txt : String) (credentials : List (String × String))
    (hu : credentials.lookup "server_url" = some u) (hne : u ≠ "")
    (hm : model ≠ "") :
    Except.map TextEmbeddingResult.embeddings
      (localai_invoke env
        (netOf { status_code := 200, jsonBody := some body200, text := txt })
        model credentials [t]).1 = .ok [[1/10, 1/5]] ∧
    Except.map (fun r => r.usage.tokens)
      (localai_invoke env
        (netOf { status_code := 200, jsonBody := some body200, text := txt })
        model credentials [t]).1 = .ok 5 := by
  constructor <;>
    simp [localai_invoke, netOf, hu, hne, hm, processResponse, body200,
      Json.subscript, lookupField, jsonElems, pyFloat, embeddingOfEntry,
      calc_response_usage, List.mapM, List.mapM.loop, Except.map, Bind.bind,
      Except.bind, pure, Except.pure]

/-- C7 witness: the conforming body at concrete credentials yields the
single vector [1/10, 1/5] and 5 tokens. -/
theorem invoke_success_witness :
    Except.map TextEmbeddingResult.embeddings
      (localai_invoke envC (netOf resp200) "m"
        [("server_url", "http://s")] ["hello"]).1 = .ok [[1/10, 1/5]] ∧
    Except.map (fun r => r.usage.tokens)
      (localai_invoke envC (netOf resp200) "m"
        [("server_url", "http://s")] ["hello"]).1 = .ok 5 :=
  invoke_success_on_conforming_body envC "m" "http://s" "hello" "raw"
    [("server_url", "http://s")] rfl (by decide) (by decide)

/-- C8 counterexample: for `server_url = "http://h/"` (trailing slash) the
posted URL is `http://h/embeddings`, which differs from the literal
interpolation `{server_url}/embeddings` = `http://h//embeddings`: the code
uses `os.path.join`, not string interpolation. -/
theorem request_url_trailing_slash_cex :
    ((localai_invoke envC (netOf resp200) "m" [("server_url", "http://h/")]
        ["x"]).2.map HttpRequest.url) = ["http://h/embeddings"] ∧
    ("http://h/embeddings" : String) ≠ "http://h/" ++ "/embeddings" :=
  ⟨rfl, by decide⟩

/-- C8 amended: for every model name, credentials and single text, `_invoke`
posts exactly one request, to `os.path.join(server_url, "embeddings")` —
i.e. `server_url + "/embeddings"` when `server_url` does not end in `/`,
and `server_url + "embeddings"` when it does — with the constant header
`Authorization: Bearer 123` independent of the supplied credentials,
`Content-Type: application/json`, the JSON body
`{"model": model, "input": texts[0]}`, and a 10-second timeout. -/
theorem request_construction (env : ModelEnv)
    (net : HttpRequest → Except String HttpResponse)
    (model u t : String) (credentials : List (String × String))
    (hu : credentials.lookup "server_url" = some u) (hne : u ≠ "")
    (hm : model ≠ "") :
    (localai_invoke env net model credentials [t]).2 =
      [{ url := osPathJoin u "embeddings"
         authorization := "Bearer 123"
         contentType := "application/json"
         body := .obj [("model", .str model), ("input", .str t)]
         timeout := 10 }] ∧
    (pyEndsWith u "/" = false → osPathJoin u "embeddings" = u ++ "/embeddings") ∧
    (pyEndsWith u "/" = true → osPathJoin u "embeddings" = u ++ "embeddings") := by
  refine ⟨?_, fun hslash => ?_, fun hslash => ?_⟩
  · simp only [localai_invoke, hu]
    rw [if_neg (by simp)]
    rw [if_neg hne, if_neg hm]
    split <;> rfl
  · simp [osPathJoin, pyStartsWith, hne, hslash, String.append_assoc]
  · simp [osPathJoin, pyStartsWith, hslash]

/-- C8 witness: concrete request for `server_url = "http://s"`. -/
theorem request_construction_witness :
    (localai_invoke envC (netOf resp200) "m" [("server_url", "http://s")]
        ["x"]).2 =
      [{ url := "http://s/embeddings"
         authorization := "Bearer 123"
         contentType := "application/json"
         body := .obj [("model", .str "m"), ("input", .str "x")]
         timeout := 10 }] := by
  have h := request_construction envC (netOf resp200) "m" "http://s" "x"
    [("server_url", "http://s")] rfl (by decide) (by decide)
  rw [h.1, h.2.1 (by decide)]
  rfl

lemma get_encoder_cached (md : String) (st : TokenizerState)
    (t : GPT2TokenizerHandle) (h : st.tokenizer = some t) :
    get_encoder md st = (t, st) := by
  simp [get_encoder, h]

lemma get_encoder_caches_result (md : String) (st : TokenizerState) :
    (get_encoder md st).2.tokenizer = some (get_encoder md st).1 := by
  cases h : st.tokenizer <;> simp [get_encoder, h, from_pretrained]

lemma get_encoder_calls_cached (md : String) : ∀ (n : ℕ) (st : TokenizerState)
    (t : GPT2TokenizerHandle), st.tokenizer = some t →
    get_encoder_calls md n st = (List.replicate n t, st) := by
  intro n
  induction n with
  | zero => intro st t h; simp [get_encoder_calls]
  | succ n ih =>
    intro st t h
    simp [get_encoder_calls, get_encoder_cached md st t h, ih st t h,
      List.replicate]

/-- C9: `get_encoder` constructs the tokenizer exactly once, on its first
call: before any call zero loads have happened; after any positive number
of calls from process start, exactly one load has happened; every call
returns the instance the first call constructed; and a repeated call
returns the identical cached pair, with no state change (no re-load). -/
theorem get_encoder_singleton :
    (∀ md st, get_encoder md (get_encoder md st).2 = get_encoder md st) ∧
    (∀ md, (get_encoder_calls md 0 TokenizerState.initial).2.loads = 0) ∧
    (∀ md n, (get_encoder_calls md (n + 1) TokenizerState.initial).2.loads
      = 1) ∧
    (∀ md n, (get_encoder_calls md (n + 1) TokenizerState.initial).1 =
      List.replicate (n + 1) (get_encoder md TokenizerState.initial).1) := by
  have hcons : ∀ md n, get_encoder_calls md (n + 1) TokenizerState.initial =
      ((get_encoder md TokenizerState.initial).1 ::
        List.replicate n (get_encoder md TokenizerState.initial).1,
       (get_encoder md TokenizerState.initial).2) := by
    intro md n
    have h := get_encoder_calls_cached md n
      (get_encoder md TokenizerState.initial).2
      (get_encoder md TokenizerState.initial).1
      (get_encoder_caches_result md TokenizerState.initial)
    simp [get_encoder_calls, h]
  refine ⟨fun md st => ?_, fun md => rfl, fun md n => ?_, fun md n => ?_⟩
  · rw [get_encoder_cached md (get_encoder md st).2 (get_encoder md st).1
      (get_encoder_caches_result md st)]
  · rw [hcons md n]
    simp [get_encoder, TokenizerState.initial, from_pretrained]
  · rw [hcons md n]
    simp [List.replicate]

/-- C3 witness: status 401 with embedded error code 401 yields the
Authorization error. -/
theorem non200_error_dispatch_witness :
    (localai_invoke envC (netOf resp401) "m"
      [("server_url", "http://s")] ["hello"]).1 =
      .error (.invokeAuthorization "bad key") := by
  have h := non200_error_dispatch envC "m" "http://s" "hello"
    [("server_url", "http://s")] resp401
    (.obj [("error", .obj [("code", .num 401), ("message", .str "bad key")])])
    (.obj [("code", .num 401), ("message", .str "bad key")])
    (.num 401) (.str "bad key") rfl (by decide) (by decide) (by decide)
    rfl rfl rfl rfl
  simpa using h
